import Mathlib

/-!
# Verification of the template-service versioned template store and renderer

Shallow embedding of `internal/database/db.go` (the versioned template store),
`internal/handler/handler.go` (the preview flow) and `models/models.go` of the
`dashboard-platform/template-service` repository, together with theorems that
settle the specified properties of template creation, retrieval, history and
rendering.

Modelling conventions:
* UUIDs are modelled as natural numbers drawn from a per-state counter
  (`DBState.nextId`); `uuid.New()` takes the next counter value.  String-typed
  identifier inputs that go through `uuid.Parse` are modelled as `Option Nat`
  (`none` = a string that fails to parse).
* The relational store is four lists mirroring the four tables, in insertion
  order (GORM issues no `ORDER BY`, so `Preload` and `Find` return rows in
  store order, modelled as insertion order).  The unique indexes created in
  `AutoMigrate` — primary keys, `(template_id, version)` and
  `(template_id, key)` — are enforced by the insert operations, which fail
  with a persistence error exactly when a conflicting row exists.
* `gorm.DB.Transaction` is modelled by running the transaction body as a
  state-threading computation and discarding the intermediate state (keeping
  the caller's original state) whenever the body returns an error.
* Error values are modelled by the abstract error taxonomy (validation /
  persistence / not-found / render errors); the Go code propagates raw
  library errors which the taxonomy classifies.
* Timestamps (`CreatedAt`/`UpdatedAt`) are omitted: no verified property
  mentions them.
-/

/-- Abstract error taxonomy for store and render operations. -/
inductive Err where
  /-- malformed identifier, malformed structured data, missing required input -/
  | validation
  /-- storage failure, including unique-constraint violation -/
  | persistence
  /-- no matching row (including ownership mismatch) -/
  | notFound
  /-- handler error: the template has no stored versions -/
  | noVersions
  /-- structurally malformed template syntax -/
  | renderError
deriving Repr, DecidableEq

deriving instance DecidableEq for Except

/-- `models.Template` (timestamps omitted, relations kept in the state). -/
structure Template where
  id : Nat
  userID : Nat
  name : String
  description : String
  type : String
  category : String
  isPublic : Bool
deriving Repr, DecidableEq

/-- `models.TemplateVersion`. -/
structure TemplateVersion where
  id : Nat
  templateID : Nat
  version : Nat
  content : String
deriving Repr, DecidableEq

/-- `models.TemplateField`.  `options` is the raw JSON blob column
(`datatypes.JSON`), `none` when the column is unset. -/
structure TemplateField where
  id : Nat
  templateID : Nat
  key : String
  label : String
  type : String
  required : Bool
  options : Option String
deriving Repr, DecidableEq

/-- `models.TemplateHistory`: the append-only audit record. -/
structure TemplateHistory where
  id : Nat
  userID : Nat
  templateID : Nat
  templateName : String
  version : Nat
deriving Repr, DecidableEq

/-- `models.TemplateFieldAPI`: one field definition in a creation request.
`options` is the raw JSON blob (`json.RawMessage`), `none` when absent. -/
structure TemplateFieldAPI where
  key : String
  label : String
  type : String
  required : Bool
  options : Option String
deriving Repr, DecidableEq

/-- `models.CreateTemplateAPI`: the creation request body. -/
structure CreateTemplateAPI where
  name : String
  description : String
  type : String
  category : String
  content : String
  fields : List TemplateFieldAPI
deriving Repr, DecidableEq

/-- `models.TemplateVersionDTO`. -/
structure TemplateVersionDTO where
  version : Nat
  content : String
deriving Repr, DecidableEq

/-- `models.TemplateDTO` (the slice actually read by `CreateHistory`:
identifier string, name, embedded version).  The identifier string is
modelled as `Option Nat`: `none` stands for a string `uuid.Parse` rejects. -/
structure TemplateDTO where
  id : Option Nat
  name : String
  version : TemplateVersionDTO
deriving Repr, DecidableEq

/-- The persistent store: the four tables, each in insertion order, plus the
identifier supply modelling `uuid.New()`. -/
structure DBState where
  templates : List Template
  versions : List TemplateVersion
  fields : List TemplateField
  history : List TemplateHistory
  nextId : Nat
deriving Repr, DecidableEq

/-- `uuid.New()`: draw a fresh identifier from the supply. -/
def freshId (s : DBState) : Nat × DBState :=
  (s.nextId, { s with nextId := s.nextId + 1 })

/-- Identifier-freshness invariant: every identifier and template reference
stored so far is below the supply counter, so freshly drawn identifiers never
collide with existing rows.  Holds of the empty store and is maintained by
every operation; stated as a `Bool` so concrete states can be checked by
evaluation. -/
def goodState (s : DBState) : Bool :=
  s.templates.all (fun t => t.id < s.nextId) &&
  s.versions.all (fun v => v.id < s.nextId && v.templateID < s.nextId) &&
  s.fields.all (fun f => f.id < s.nextId && f.templateID < s.nextId) &&
  s.history.all (fun h => h.id < s.nextId)

/-- `tx.Create(&template)`: insert a template row; the primary key is unique,
a conflicting row makes the insert fail. -/
def insertTemplate (s : DBState) (t : Template) : Except Err DBState :=
  if s.templates.any (fun u => u.id == t.id) then .error .persistence
  else .ok { s with templates := s.templates ++ [t] }

/-- `tx.Create(&version)`: insert a version row; enforces the primary key and
the unique index `idx_template_version_unique` on `(template_id, version)`. -/
def insertVersion (s : DBState) (v : TemplateVersion) : Except Err DBState :=
  if s.versions.any (fun w =>
      w.id == v.id || (w.templateID == v.templateID && w.version == v.version)) then
    .error .persistence
  else .ok { s with versions := s.versions ++ [v] }

/-- `tx.Create(&field)`: insert a field row; enforces the primary key and the
unique index `idx_template_field_key` on `(template_id, key)`. -/
def insertField (s : DBState) (f : TemplateField) : Except Err DBState :=
  if s.fields.any (fun g =>
      g.id == f.id || (g.templateID == f.templateID && g.key == f.key)) then
    .error .persistence
  else .ok { s with fields := s.fields ++ [f] }

/-- `d.db.Create(&data)` for a history row; only the primary key is unique. -/
def insertHistory (s : DBState) (h : TemplateHistory) : Except Err DBState :=
  if s.history.any (fun g => g.id == h.id) then .error .persistence
  else .ok { s with history := s.history ++ [h] }

/-- Whitespace skipping for the structured-data (JSON) syntax check. -/
def skipWs : List Char → List Char
  | [] => []
  | c :: r => if c = ' ' || c = '\t' || c = '\n' || c = '\r' then skipWs r else c :: r

/-- Scan the remainder of a JSON string literal (after the opening quote),
returning the input after the closing quote; an escape consumes the next
character. -/
def jsonStringRest : List Char → Option (List Char)
  | [] => none
  | '"' :: r => some r
  | '\\' :: [] => none
  | '\\' :: _ :: r => jsonStringRest r
  | _ :: r => jsonStringRest r

/-- Length of the leading run of decimal digits, and the rest. -/
def spanDigits : List Char → Nat × List Char
  | [] => (0, [])
  | c :: r =>
    if c.isDigit then
      let p := spanDigits r
      (p.1 + 1, p.2)
    else (0, c :: r)

/-- Scan a JSON number (`-? int frac? exp?`, no leading zeros), returning the
rest of the input. -/
def jsonNumberRest (s : List Char) : Option (List Char) :=
  let s1 := match s with | '-' :: r => r | _ => s
  let leadOk : Bool := match s1 with
    | '0' :: d :: _ => !d.isDigit
    | _ => true
  let p := spanDigits s1
  if p.1 = 0 || !leadOk then none else
  let afterFrac : Option (List Char) :=
    match p.2 with
    | '.' :: r =>
      let q := spanDigits r
      if q.1 = 0 then none else some q.2
    | _ => some p.2
  match afterFrac with
  | none => none
  | some s2 =>
    match s2 with
    | 'e' :: r | 'E' :: r =>
      let r1 := match r with | '+' :: u => u | '-' :: u => u | _ => r
      let q := spanDigits r1
      if q.1 = 0 then none else some q.2
    | _ => some s2

mutual

/-- Modelled from the spec: syntactic well-formedness of "structured
(JSON-equivalent) data", standing for Go's `encoding/json.Unmarshal` into
`interface{}` (the library is not part of this repository).  Scans one JSON
value, returning the remaining input; fuel bounds recursion depth. -/
def jsonValueRest : Nat → List Char → Option (List Char)
  | 0, _ => none
  | fuel + 1, s =>
    match skipWs s with
    | 'n' :: 'u' :: 'l' :: 'l' :: r => some r
    | 't' :: 'r' :: 'u' :: 'e' :: r => some r
    | 'f' :: 'a' :: 'l' :: 's' :: 'e' :: r => some r
    | '"' :: r => jsonStringRest r
    | '[' :: r => jsonArrayRest fuel r
    | '{' :: r => jsonObjectRest fuel r
    | s1 => jsonNumberRest s1

/-- Scan the remainder of a JSON array (after `[`). -/
def jsonArrayRest : Nat → List Char → Option (List Char)
  | 0, _ => none
  | fuel + 1, s =>
    match skipWs s with
    | ']' :: r => some r
    | s1 => jsonArrayItems fuel s1

/-- Scan `value (, value)* ]`. -/
def jsonArrayItems : Nat → List Char → Option (List Char)
  | 0, _ => none
  | fuel + 1, s =>
    match jsonValueRest fuel s with
    | none => none
    | some r =>
      match skipWs r with
      | ',' :: r1 => jsonArrayItems fuel r1
      | ']' :: r1 => some r1
      | _ => none

/-- Scan the remainder of a JSON object (after `{`). -/
def jsonObjectRest : Nat → List Char → Option (List Char)
  | 0, _ => none
  | fuel + 1, s =>
    match skipWs s with
    | '\x7d' :: r => some r
    | s1 => jsonObjectItems fuel s1

/-- Scan `"key" : value (, "key" : value)* }`. -/
def jsonObjectItems : Nat → List Char → Option (List Char)
  | 0, _ => none
  | fuel + 1, s =>
    match skipWs s with
    | '"' :: r =>
      match jsonStringRest r with
      | none => none
      | some r1 =>
        match skipWs r1 with
        | ':' :: r2 =>
          match jsonValueRest fuel r2 with
          | none => none
          | some r3 =>
            match skipWs r3 with
            | ',' :: r4 => jsonObjectItems fuel r4
            | '\x7d' :: r4 => some r4
            | _ => none
        | _ => none
    | _ => none

end

/-- A raw options blob is well-formed structured data: one JSON value with
nothing but whitespace around it. -/
def jsonValid (raw : String) : Bool :=
  match jsonValueRest (4 * raw.length + 4) raw.toList with
  | some r => skipWs r == []
  | none => false

/-- Strip leading and trailing whitespace from a character list (the
whitespace trimming raymond applies inside `{{ name }}`). -/
def trimChars (cs : List Char) : List Char :=
  ((cs.dropWhile Char.isWhitespace).reverse.dropWhile Char.isWhitespace).reverse

/-- Value lookup in the caller-supplied values mapping; a missing name yields
the empty string. -/
def lookupVal (values : List (String × String)) (k : String) : String :=
  match values.find? (fun p => p.1 == k) with
  | some p => p.2
  | none => ""

/-- Modelled from the spec: the mustache-style double-brace interpolation of
the renderer invoked by `PreviewTemplate` (the `raymond` handlebars library is
not part of this repository).  Scans the content; outside a placeholder
(`none`) characters are copied and `{{` opens a placeholder; inside a
placeholder (`some acc`) characters accumulate into the name and `}}` closes
it, substituting the looked-up value (empty for a missing name).  An
unterminated placeholder makes the whole render fail. -/
def renderLoop (values : List (String × String)) :
    List Char → Option (List Char) → Option (List Char)
  | [], none => some []
  | [], some _ => none
  | '{' :: '{' :: rest, none => renderLoop values rest (some [])
  | '\x7d' :: '\x7d' :: rest, some acc =>
      (renderLoop values rest none).map
        (fun out => (lookupVal values (String.mk (trimChars acc))).toList ++ out)
  | c :: rest, none => (renderLoop values rest none).map (fun out => c :: out)
  | c :: rest, some acc => renderLoop values rest (some (acc ++ [c]))

/-- `raymond.Render`: substitute every placeholder of `content` using
`values`; `none` models the render error on malformed syntax. -/
def render (content : String) (values : List (String × String)) : Option String :=
  (renderLoop values content.toList none).map String.mk

/-- Structural well-formedness of template content: every `{{` is closed by a
matching `}}` (same scan as `renderLoop`, tracking only whether the scanner is
inside a placeholder). -/
def wfLoop : List Char → Bool → Bool
  | [], false => true
  | [], true => false
  | '{' :: '{' :: rest, false => wfLoop rest true
  | '\x7d' :: '\x7d' :: rest, true => wfLoop rest false
  | _ :: rest, false => wfLoop rest false
  | _ :: rest, true => wfLoop rest true

/-- Template content is well formed when the placeholder scan ends outside a
placeholder. -/
def wellFormedContent (content : String) : Bool :=
  wfLoop content.toList false

/-- The placeholder names referenced by template content (same scan as
`renderLoop`, collecting the closed placeholder names). -/
def phLoop : List Char → Option (List Char) → List String
  | [], _ => []
  | '{' :: '{' :: rest, none => phLoop rest (some [])
  | '\x7d' :: '\x7d' :: rest, some acc => String.mk (trimChars acc) :: phLoop rest none
  | _ :: rest, none => phLoop rest none
  | c :: rest, some acc => phLoop rest (some (acc ++ [c]))

/-- The placeholder names referenced by `content`. -/
def placeholders (content : String) : List String :=
  phLoop content.toList none

/-- The field row built in `CreateTemplate`'s loop body for one supplied field
definition: key, label and required flag are copied, an empty type defaults to
"text".  The source never copies the supplied options blob into the row (it is
only syntax-checked), so the persisted `options` column is always unset. -/
def mkField (templateID fid : Nat) (f : TemplateFieldAPI) : TemplateField :=
  { id := fid
    templateID := templateID
    key := f.key
    label := f.label
    type := if f.type == "" then "text" else f.type
    required := f.required
    options := none }

/-- The rows `CreateTemplate`'s field loop persists for a list of field
definitions, with identifiers drawn consecutively from `fid`. -/
def mkFields (templateID fid : Nat) : List TemplateFieldAPI → List TemplateField
  | [] => []
  | f :: fs => mkField templateID fid f :: mkFields templateID (fid + 1) fs

/-- The field loop of `Database.CreateTemplate` (db.go lines 134-158), run
inside the transaction: for each supplied field build the row (type defaulting
to "text"), check a supplied options blob with `json.Unmarshal`, then insert;
the first error aborts the loop. -/
def createTemplateFields (s : DBState) (templateID : Nat) :
    List TemplateFieldAPI → Except Err DBState
  | [] => .ok s
  | f :: fs =>
    let p := freshId s
    let field := mkField templateID p.1 f
    let checked : Except Err Unit :=
      match f.options with
      | some raw => if jsonValid raw then .ok () else .error .validation
      | none => .ok ()
    match checked with
    | .error e => .error e
    | .ok () =>
      match insertField p.2 field with
      | .error e => .error e
      | .ok s1 => createTemplateFields s1 templateID fs

/-- The transaction closure of `Database.CreateTemplate` (db.go lines
100-160): insert the template row (`isPublic` forced to `false`), then the
first version row with version number 1, then one field row per supplied
field definition; the first error aborts the body. -/
def createTemplateTx (s : DBState) (userID templateID : Nat)
    (input : CreateTemplateAPI) : Except Err DBState :=
  let template : Template :=
    { id := templateID
      userID := userID
      name := input.name
      description := input.description
      type := input.type
      category := input.category
      isPublic := false }
  match insertTemplate s template with
  | .error e => .error e
  | .ok s1 =>
    let q := freshId s1
    let version : TemplateVersion :=
      { id := q.1, templateID := templateID, version := 1, content := input.content }
    match insertVersion q.2 version with
    | .error e => .error e
    | .ok s2 => createTemplateFields s2 templateID input.fields

/-- `Database.CreateTemplate` (db.go lines 98-167): draw the new template
identifier and run the transaction closure under `d.db.Transaction`; the
transaction commits the state produced by the body on success, and on any
error rolls back, leaving the caller's state unchanged. -/
def createTemplate (s : DBState) (userID : Nat) (input : CreateTemplateAPI) :
    Except Err Nat × DBState :=
  let p := freshId s
  match createTemplateTx p.2 userID p.1 input with
  | .ok s3 => (.ok p.1, s3)
  | .error e => (.error e, s)

/-- `Preload("Fields")`: the field rows of a template, in store order. -/
def fieldsOf (s : DBState) (templateID : Nat) : List TemplateField :=
  s.fields.filter (fun f => f.templateID == templateID)

/-- `Preload("Versions")`: the version rows of a template, in store order. -/
def versionsOf (s : DBState) (templateID : Nat) : List TemplateVersion :=
  s.versions.filter (fun v => v.templateID == templateID)

/-- `Database.GetTemplateByID` (db.go lines 188-210): parse both identifier
strings (template identifier first, as in the source), then return the first
row matching `id = ? AND user_id = ?`; zero matching rows give the not-found
error. -/
def getTemplateByID (s : DBState) (userIDStr templateIDStr : Option Nat) :
    Except Err Template :=
  match templateIDStr with
  | none => .error .validation
  | some templateID =>
    match userIDStr with
    | none => .error .validation
    | some userID =>
      match s.templates.find? (fun t => t.id == templateID && t.userID == userID) with
      | some t => .ok t
      | none => .error .notFound

/-- `Database.CreateHistory` (db.go lines 212-227): parse the DTO's template
identifier, then append one history row capturing the DTO's identifier, name
and embedded version number; the caller's state is unchanged on error. -/
def createHistory (s : DBState) (template : TemplateDTO) (userID : Nat) :
    Except Err Unit × DBState :=
  match template.id with
  | none => (.error .validation, s)
  | some templateID =>
    let p := freshId s
    let data : TemplateHistory :=
      { id := p.1
        userID := userID
        templateID := templateID
        templateName := template.name
        version := template.version.version }
    match insertHistory p.2 data with
    | .error e => (.error e, s)
    | .ok s1 => (.ok (), s1)

/-- `HTTPHandler.PreviewTemplate` (handler.go lines 155-213), past the
transport checks: fetch the template with its preloaded relations, reject a
template whose version list is empty ("Template has no versions"), then
render the content of the FIRST element of the loaded version list
(`template.Versions[0]`) against the supplied values. -/
def previewTemplate (s : DBState) (userIDStr templateIDStr : Option Nat)
    (values : List (String × String)) : Except Err String :=
  match getTemplateByID s userIDStr templateIDStr with
  | .error e => .error e
  | .ok t =>
    match versionsOf s t.id with
    | [] => .error .noVersions
    | v :: _ =>
      match render v.content values with
      | some out => .ok out
      | none => .error .renderError

/-- Modelled from the spec: the `UpdateTemplate` operation (its handler is
routed in `cmd/main.go` but its source is not under `src/`).  Per the spec a
content change requires a new version with a strictly increasing version
number, so the update appends a version row numbered one past the template's
highest stored version. -/
def updateTemplate (s : DBState) (userID templateID : Nat) (content : String) :
    Except Err Unit × DBState :=
  match s.templates.find? (fun t => t.id == templateID && t.userID == userID) with
  | none => (.error .notFound, s)
  | some t =>
    let nextVersion := ((versionsOf s t.id).map (fun v => v.version)).foldr max 0 + 1
    let p := freshId s
    match insertVersion p.2
        { id := p.1, templateID := t.id, version := nextVersion, content := content } with
    | .error e => (.error e, s)
    | .ok s1 => (.ok (), s1)

/-- Modelled from the spec: a later rename of a template (part of "updating
descriptive metadata"; the update handler's source is not under `src/`).
Only the name of the matching template row changes; no other table is
touched. -/
def renameTemplate (s : DBState) (userID templateID : Nat) (newName : String) :
    DBState :=
  { s with
    templates := s.templates.map (fun t =>
      if t.id == templateID && t.userID == userID then { t with name := newName } else t) }

/-- The empty store. -/
def emptyDB : DBState :=
  { templates := [], versions := [], fields := [], history := [], nextId := 0 }

/-- A concrete well-formed creation request (one field, no options), used to
instantiate proved properties at a concrete input. -/
def inputOk : CreateTemplateAPI :=
  { name := "invoice"
    description := "monthly invoice"
    type := "html"
    category := "billing"
    content := "Hello \x7b\x7bname\x7d\x7d"
    fields := [{ key := "name", label := "Name", type := "", required := true,
                 options := none }] }

/-- `inputOk` with a field whose options blob is not well-formed JSON. -/
def inputBadOptions : CreateTemplateAPI :=
  { inputOk with
    fields := [{ key := "name", label := "Name", type := "", required := true,
                 options := some "\x7b\"choices\": " }] }

/-- `inputOk` with a field whose options blob is well-formed JSON. -/
def inputGoodOptions : CreateTemplateAPI :=
  { inputOk with
    fields := [{ key := "name", label := "Name", type := "select", required := true,
                 options := some "\x7b\"choices\": [\"a\", \"b\"]\x7d" }] }

/-- The store after creating `inputOk` in the empty store for owner 7. -/
def stateOk : DBState := (createTemplate emptyDB 7 inputOk).2

/-- A store holding one template for each of the two owners 1 and 2. -/
def twoOwnerState : DBState :=
  { templates :=
      [{ id := 0, userID := 1, name := "a", description := "", type := "html",
         category := "", isPublic := false },
       { id := 1, userID := 2, name := "b", description := "", type := "html",
         category := "", isPublic := false }]
    versions := [{ id := 2, templateID := 0, version := 1, content := "x" },
                 { id := 3, templateID := 1, version := 1, content := "y" }]
    fields := []
    history := []
    nextId := 4 }

/-- The store after creating a template with content "Hello {{name}}" and no
fields for owner 7 in the empty store; the new template has identifier 0. -/
def helloState : DBState :=
  (createTemplate emptyDB 7
    { name := "greeting", description := "", type := "html", category := "",
      content := "Hello \x7b\x7bname\x7d\x7d", fields := [] }).2

/-- `helloState` after the spec-modelled update adds version 2 with content
"Bye {{name}}". -/
def helloState2 : DBState :=
  (updateTemplate helloState 7 0 "Bye \x7b\x7bname\x7d\x7d").2

/-- A store holding one template (identifier 0, owner 7) with an empty
version list. -/
def noVersionState : DBState :=
  { templates := [{ id := 0, userID := 7, name := "empty", description := "",
                    type := "html", category := "", isPublic := false }]
    versions := []
    fields := []
    history := []
    nextId := 1 }

/-- A concrete template DTO for instantiating the history properties. -/
def dtoA : TemplateDTO :=
  { id := some 0
    name := "snapshot name"
    version := { version := 1, content := "ignored" } }

theorem insertTemplate_ok {s s1 : DBState} {t : Template}
    (h : insertTemplate s t = .ok s1) :
    s1 = { s with templates := s.templates ++ [t] } := by
  unfold insertTemplate at h
  split at h
  · cases h
  · cases h; rfl

theorem insertVersion_ok {s s1 : DBState} {v : TemplateVersion}
    (h : insertVersion s v = .ok s1) :
    s1 = { s with versions := s.versions ++ [v] } := by
  unfold insertVersion at h
  split at h
  · cases h
  · cases h; rfl

theorem insertField_ok {s s1 : DBState} {f : TemplateField}
    (h : insertField s f = .ok s1) :
    s1 = { s with fields := s.fields ++ [f] } := by
  unfold insertField at h
  split at h
  · cases h
  · cases h; rfl

theorem insertHistory_ok {s s1 : DBState} {h0 : TemplateHistory}
    (h : insertHistory s h0 = .ok s1) :
    s1 = { s with history := s.history ++ [h0] } := by
  unfold insertHistory at h
  split at h
  · cases h
  · cases h; rfl

theorem mkFields_length (tid fid : Nat) (fs : List TemplateFieldAPI) :
    (mkFields tid fid fs).length = fs.length := by
  induction fs generalizing fid <;> simp_all [mkFields]

theorem createTemplateFields_ok {fs : List TemplateFieldAPI} {s s1 : DBState} {tid : Nat}
    (h : createTemplateFields s tid fs = .ok s1) :
    s1.templates = s.templates ∧ s1.versions = s.versions ∧ s1.history = s.history ∧
    s1.fields = s.fields ++ mkFields tid s.nextId fs ∧
    s1.nextId = s.nextId + fs.length := by
  induction fs generalizing s with
  | nil =>
    cases h
    simp [mkFields]
  | cons f fs ih =>
    rw [createTemplateFields] at h
    simp only [freshId] at h
    split at h
    · cases h
    · split at h
      · cases h
      · rename_i hins
        have hs2 := insertField_ok hins
        subst hs2
        have := ih h
        simp only at this
        refine ⟨this.1, this.2.1, this.2.2.1, ?_, ?_⟩
        · rw [this.2.2.2.1, mkFields, List.append_assoc]
          rfl
        · rw [this.2.2.2.2]; simp only [List.length_cons]; omega

theorem createTemplateTx_ok {s s1 : DBState} {uid tid : Nat} {input : CreateTemplateAPI}
    (h : createTemplateTx s uid tid input = .ok s1) :
    s1.templates = s.templates ++
      [{ id := tid, userID := uid, name := input.name,
         description := input.description, type := input.type,
         category := input.category, isPublic := false }] ∧
    s1.versions = s.versions ++
      [{ id := s.nextId, templateID := tid, version := 1,
         content := input.content }] ∧
    s1.fields = s.fields ++ mkFields tid (s.nextId + 1) input.fields ∧
    s1.history = s.history := by
  unfold createTemplateTx at h
  simp only [freshId] at h
  split at h
  · cases h
  · rename_i hit
    have := insertTemplate_ok hit
    subst this
    split at h
    · cases h
    · rename_i hiv
      have := insertVersion_ok hiv
      subst this
      have := createTemplateFields_ok h
      simp only at this
      exact ⟨this.1, this.2.1, by rw [this.2.2.2.1], this.2.2.1⟩

theorem createTemplate_ok {s s1 : DBState} {uid tid : Nat} {input : CreateTemplateAPI}
    (h : createTemplate s uid input = (.ok tid, s1)) :
    tid = s.nextId ∧
    s1.templates = s.templates ++
      [{ id := s.nextId, userID := uid, name := input.name,
         description := input.description, type := input.type,
         category := input.category, isPublic := false }] ∧
    s1.versions = s.versions ++
      [{ id := s.nextId + 1, templateID := s.nextId, version := 1,
         content := input.content }] ∧
    s1.fields = s.fields ++ mkFields s.nextId (s.nextId + 2) input.fields ∧
    s1.history = s.history := by
  unfold createTemplate at h
  simp only [freshId] at h
  split at h
  · rename_i htx
    cases h
    have := createTemplateTx_ok htx
    simp only at this
    exact ⟨rfl, this.1, this.2.1, this.2.2.1, this.2.2.2⟩
  · cases h

theorem createTemplate_err {s s1 : DBState} {uid : Nat} {e : Err}
    {input : CreateTemplateAPI}
    (h : createTemplate s uid input = (.error e, s1)) : s1 = s := by
  unfold createTemplate at h
  simp only [freshId] at h
  split at h
  · cases h
  · cases h; rfl

theorem renderLoop_isSome_eq_wfLoop (v : List (String × String)) (cs : List Char)
    (mode : Option (List Char)) :
    (renderLoop v cs mode).isSome = wfLoop cs mode.isSome := by
  induction cs, mode using phLoop.induct with
  | case1 mode => cases mode <;> simp [renderLoop, wfLoop]
  | case2 rest ih => simpa [renderLoop, wfLoop] using ih
  | case3 rest acc ih => simpa [renderLoop, wfLoop] using ih
  | case4 head rest hne ih => simp_all [renderLoop, wfLoop]
  | case5 c rest acc hne ih => simp_all [renderLoop, wfLoop]

theorem renderLoop_agree (v w : List (String × String)) (cs : List Char)
    (mode : Option (List Char))
    (h : ∀ k ∈ phLoop cs mode, lookupVal v k = lookupVal w k) :
    renderLoop v cs mode = renderLoop w cs mode := by
  induction cs, mode using phLoop.induct with
  | case1 mode => cases mode <;> simp [renderLoop]
  | case2 rest ih => simp_all [renderLoop, phLoop]
  | case3 rest acc ih => simp_all [renderLoop, phLoop]
  | case4 head rest hne ih => simp_all [renderLoop, phLoop]
  | case5 c rest acc hne ih => simp_all [renderLoop, phLoop]

/-- Unpacked form of the identifier-freshness invariant. -/
theorem goodState_spec {s : DBState} (h : goodState s = true) :
    (∀ t ∈ s.templates, t.id < s.nextId) ∧
    (∀ v ∈ s.versions, v.id < s.nextId ∧ v.templateID < s.nextId) ∧
    (∀ f ∈ s.fields, f.id < s.nextId ∧ f.templateID < s.nextId) ∧
    (∀ e ∈ s.history, e.id < s.nextId) := by
  simp only [goodState, Bool.and_eq_true, List.all_eq_true, Bool.and_eq_true,
    decide_eq_true_eq] at h
  exact ⟨h.1.1.1, h.1.1.2, h.1.2, h.2⟩

/-- Computation of the creation transaction for a single-field request whose
options blob is supplied, under the no-conflict side conditions: the outcome
is decided exactly by the syntactic validity of the blob. -/
theorem createTemplateTx_single_some (s : DBState) (uid tid : Nat)
    (input : CreateTemplateAPI) (f : TemplateFieldAPI) (raw : String)
    (hf : input.fields = [f]) (hopt : f.options = some raw)
    (hT : (s.templates.any fun u => u.id == tid) = false)
    (hV : (s.versions.any fun w =>
      w.id == s.nextId || (w.templateID == tid && w.version == 1)) = false)
    (hF : (s.fields.any fun g =>
      g.id == s.nextId + 1 || (g.templateID == tid && g.key == f.key)) = false) :
    createTemplateTx s uid tid input =
      if jsonValid raw then
        .ok { s with
          templates := s.templates ++
            [{ id := tid, userID := uid, name := input.name,
               description := input.description, type := input.type,
               category := input.category, isPublic := false }]
          versions := s.versions ++
            [{ id := s.nextId, templateID := tid, version := 1,
               content := input.content }]
          fields := s.fields ++ [mkField tid (s.nextId + 1) f]
          nextId := s.nextId + 2 }
      else .error .validation := by
  have hT2 : ¬ ∃ u ∈ s.templates, u.id = tid := by simpa using hT
  have hV2 : ¬ ∃ w ∈ s.versions, w.id = s.nextId ∨ (w.templateID = tid ∧ w.version = 1) := by
    simpa using hV
  have hF2 : ¬ ∃ g ∈ s.fields, g.id = s.nextId + 1 ∨ (g.templateID = tid ∧ g.key = f.key) := by
    simpa using hF
  unfold createTemplateTx createTemplateFields insertTemplate insertVersion insertField
  simp only [freshId, hf, hopt]
  by_cases hv : jsonValid raw <;>
    simp [hv, createTemplateFields, mkField, hT2, hV2, hF2]

/-- Computation of the creation transaction for a single-field request with
no options blob, under the no-conflict side conditions: it succeeds. -/
theorem createTemplateTx_single_none (s : DBState) (uid tid : Nat)
    (input : CreateTemplateAPI) (f : TemplateFieldAPI)
    (hf : input.fields = [f]) (hopt : f.options = none)
    (hT : (s.templates.any fun u => u.id == tid) = false)
    (hV : (s.versions.any fun w =>
      w.id == s.nextId || (w.templateID == tid && w.version == 1)) = false)
    (hF : (s.fields.any fun g =>
      g.id == s.nextId + 1 || (g.templateID == tid && g.key == f.key)) = false) :
    createTemplateTx s uid tid input =
      .ok { s with
        templates := s.templates ++
          [{ id := tid, userID := uid, name := input.name,
             description := input.description, type := input.type,
             category := input.category, isPublic := false }]
        versions := s.versions ++
          [{ id := s.nextId, templateID := tid, version := 1,
             content := input.content }]
        fields := s.fields ++ [mkField tid (s.nextId + 1) f]
        nextId := s.nextId + 2 } := by
  have hT2 : ¬ ∃ u ∈ s.templates, u.id = tid := by simpa using hT
  have hV2 : ¬ ∃ w ∈ s.versions, w.id = s.nextId ∨ (w.templateID = tid ∧ w.version = 1) := by
    simpa using hV
  have hF2 : ¬ ∃ g ∈ s.fields, g.id = s.nextId + 1 ∨ (g.templateID = tid ∧ g.key = f.key) := by
    simpa using hF
  unfold createTemplateTx createTemplateFields insertTemplate insertVersion insertField
  simp only [freshId, hf, hopt]
  simp [createTemplateFields, mkField, hT2, hV2, hF2]

/-- The persisted field rows keep the supplied keys, in order. -/
theorem mkFields_map_key (tid fid : Nat) (fs : List TemplateFieldAPI) :
    (mkFields tid fid fs).map (fun r => r.key) = fs.map (fun f => f.key) := by
  induction fs generalizing fid <;> simp_all [mkFields, mkField]

/-- The persisted field rows keep the supplied types, an empty type
defaulting to "text". -/
theorem mkFields_map_type (tid fid : Nat) (fs : List TemplateFieldAPI) :
    (mkFields tid fid fs).map (fun r => r.type) =
      fs.map (fun f => if f.type == "" then "text" else f.type) := by
  induction fs generalizing fid <;> simp_all [mkFields, mkField]

/-- No persisted field row carries an options blob (the source never copies
it into the row). -/
theorem mkFields_options_none (tid fid : Nat) (fs : List TemplateFieldAPI) :
    ∀ r ∈ mkFields tid fid fs, r.options = none := by
  induction fs generalizing fid with
  | nil => simp [mkFields]
  | cons f fs ih =>
    intro r hr
    rcases (List.mem_cons).mp hr with h | h
    · rw [h]; rfl
    · exact ih (fid + 1) r h

/-- Claim C1: for every creation input, `CreateTemplate` either persists
exactly one template row, exactly one version row numbered 1, and one field
row per supplied field definition, or - on any validation or insertion
error - persists no rows at all: the store is unchanged. -/
theorem createTemplate_atomic (s : DBState) (uid : Nat) (input : CreateTemplateAPI) :
    (∀ tid s1, createTemplate s uid input = (.ok tid, s1) →
       (∃ t, s1.templates = s.templates ++ [t]) ∧
       (∃ v, s1.versions = s.versions ++ [v] ∧ v.version = 1) ∧
       s1.fields.length = s.fields.length + input.fields.length ∧
       s1.history = s.history) ∧
    (∀ e s1, createTemplate s uid input = (.error e, s1) → s1 = s) := by
  constructor
  · intro tid s1 h
    obtain ⟨-, ht, hv, hfld, hh⟩ := createTemplate_ok h
    exact ⟨⟨_, ht⟩, ⟨_, hv, rfl⟩, by rw [hfld]; simp [mkFields_length], hh⟩
  · intro e s1 h
    exact createTemplate_err h

/-- Claim C5: `GetTemplateByID` queried by one owner for a template that
belongs to a different owner returns the not-found error and never the other
owner's data, and the outcome coincides with querying an identifier that
matches no stored template at all. -/
theorem getTemplateByID_owner_filter (s : DBState) (ownerA : Nat) (tmpl : Template)
    (hmem : tmpl ∈ s.templates) (hown : tmpl.userID ≠ ownerA)
    (huniq : ∀ t ∈ s.templates, t.id = tmpl.id → t = tmpl) :
    getTemplateByID s (some ownerA) (some tmpl.id) = .error .notFound ∧
    ∀ missingID, (∀ t ∈ s.templates, t.id ≠ missingID) →
      getTemplateByID s (some ownerA) (some missingID) = .error .notFound := by
  constructor
  · unfold getTemplateByID
    have hnone : s.templates.find? (fun t => t.id == tmpl.id && t.userID == ownerA)
        = none := by
      rw [List.find?_eq_none]
      intro t ht
      simp only [Bool.and_eq_true, beq_iff_eq, not_and]
      intro hid
      rw [huniq t ht hid]
      exact hown
    simp [hnone]
  · intro missingID hmiss
    unfold getTemplateByID
    have hnone : s.templates.find? (fun t => t.id == missingID && t.userID == ownerA)
        = none := by
      rw [List.find?_eq_none]
      intro t ht
      simp only [Bool.and_eq_true, beq_iff_eq, not_and]
      intro hid
      exact absurd hid (hmiss t ht)
    simp [hnone]

/-- Claim C7: every field row persisted by a successful `CreateTemplate`
keeps the supplied key; its type is the supplied type when non-empty and
"text" when the supplied type is empty; a field supplied without options
persists with no options set. -/
theorem createTemplate_field_defaults (s : DBState) (uid : Nat)
    (input : CreateTemplateAPI) (tid : Nat) (s1 : DBState)
    (h : createTemplate s uid input = (.ok tid, s1)) :
    ∃ rows, s1.fields = s.fields ++ rows ∧
      rows.map (fun r => r.key) = input.fields.map (fun f => f.key) ∧
      rows.map (fun r => r.type) =
        input.fields.map (fun f => if f.type == "" then "text" else f.type) ∧
      ∀ p ∈ rows.zip input.fields, p.2.options = none → p.1.options = none := by
  obtain ⟨-, -, -, hfld, -⟩ := createTemplate_ok h
  refine ⟨_, hfld, mkFields_map_key _ _ _, mkFields_map_type _ _ _, ?_⟩
  rintro ⟨a, b⟩ hp -
  exact mkFields_options_none _ _ _ a (List.of_mem_zip hp).1

/-- Claim C8, amended: the preview operation substitutes values into the
content of the FIRST element of the template's stored version list (the
store-order head, `template.Versions[0]`), which is the highest-numbered
version only when the head happens to be it (for example when exactly one
version exists) - not, in general, the latest version. -/
theorem previewTemplate_renders_first_version (s : DBState)
    (userIDStr templateIDStr : Option Nat) (values : List (String × String))
    (t : Template) (v : TemplateVersion) (rest : List TemplateVersion)
    (ht : getTemplateByID s userIDStr templateIDStr = .ok t)
    (hv : versionsOf s t.id = v :: rest) :
    previewTemplate s userIDStr templateIDStr values =
      match render v.content values with
      | some out => .ok out
      | none => .error .renderError := by
  unfold previewTemplate
  simp only [ht, hv]

/-- Claim C8, counterexample to the claim as stated: after a second version
(number 2, content "Bye {{name}}") is added to a template whose first version
is "Hello {{name}}", the preview renders "Hello Ann" - the first version's
content - although the latest (highest-numbered) version renders "Bye Ann". -/
theorem previewTemplate_ignores_latest_version :
    previewTemplate helloState2 (some 7) (some 0) [("name", "Ann")] =
      .ok "Hello Ann" ∧
    versionsOf helloState2 0 =
      [{ id := 1, templateID := 0, version := 1,
         content := "Hello \x7b\x7bname\x7d\x7d" },
       { id := 2, templateID := 0, version := 2,
         content := "Bye \x7b\x7bname\x7d\x7d" }] ∧
    (∀ w ∈ versionsOf helloState2 0, w.version ≤ 2) ∧
    render "Bye \x7b\x7bname\x7d\x7d" [("name", "Ann")] = some "Bye Ann" ∧
    (Except.ok "Hello Ann" : Except Err String) ≠ .ok "Bye Ann" :=
  ⟨by decide, by decide, by decide, by decide, by decide⟩

/-- Claim C9: a history row written by `CreateHistory` stores a denormalized
copy of the DTO's template name, identifier, acting user and version number
captured at write time, and a later rename of the referenced template leaves
the stored history rows untouched. -/
theorem createHistory_snapshot (s : DBState) (dto : TemplateDTO) (uid tid : Nat)
    (s1 : DBState) (hid : dto.id = some tid)
    (h : createHistory s dto uid = (.ok (), s1)) :
    ∃ entry, s1.history = s.history ++ [entry] ∧
      entry.templateName = dto.name ∧ entry.templateID = tid ∧
      entry.userID = uid ∧ entry.version = dto.version.version ∧
      ∀ renamer newName,
        (renameTemplate s1 renamer tid newName).history = s1.history := by
  unfold createHistory at h
  rw [hid] at h
  simp only [freshId] at h
  split at h
  · cases h
  · rename_i hins
    cases h
    have := insertHistory_ok hins
    subst this
    exact ⟨_, rfl, rfl, rfl, rfl, rfl, fun renamer newName => rfl⟩

/-- Claim C10: a preview of a template whose stored version list is empty
fails with the "Template has no versions" error before any rendering, and a
successful preview only ever happens for a template whose version list is
non-empty (so the head access never runs on an empty list). -/
theorem previewTemplate_empty_versions_guard :
    (∀ (s : DBState) (userIDStr templateIDStr : Option Nat)
       (values : List (String × String)) (t : Template),
       getTemplateByID s userIDStr templateIDStr = .ok t →
       versionsOf s t.id = [] →
       previewTemplate s userIDStr templateIDStr values = .error .noVersions) ∧
    (∀ (s : DBState) (userIDStr templateIDStr : Option Nat)
       (values : List (String × String)) (out : String),
       previewTemplate s userIDStr templateIDStr values = .ok out →
       ∃ t v rest, getTemplateByID s userIDStr templateIDStr = .ok t ∧
         versionsOf s t.id = v :: rest ∧ render v.content values = some out) := by
  constructor
  · intro s u tidS vals t ht hv
    unfold previewTemplate
    simp only [ht, hv]
  · intro s u tidS vals out h
    unfold previewTemplate at h
    split at h
    · cases h
    · rename_i t ht
      split at h
      · cases h
      · rename_i v rest hv
        split at h
        · rename_i o hr
          cases h
          exact ⟨t, v, rest, ht, hv, hr⟩
        · cases h

/-- Claim C3: rendering replaces a placeholder by its matching value
(Render("Hello {{name}}", [name: "Ann"]) = "Hello Ann"); a placeholder with
no matching value renders as the empty string without failing
(Render("Hello {{name}}", []) = "Hello "); and values whose names are not
referenced by any placeholder do not affect the output. -/
theorem render_substitution :
    render "Hello \x7b\x7bname\x7d\x7d" [("name", "Ann")] = some "Hello Ann" ∧
    render "Hello \x7b\x7bname\x7d\x7d" [] = some "Hello " ∧
    ∀ (content : String) (v w : List (String × String)),
      (∀ k ∈ placeholders content, lookupVal v k = lookupVal w k) →
      render content v = render content w := by
  refine ⟨by decide, by decide, ?_⟩
  intro content v w h
  unfold render
  rw [renderLoop_agree v w content.toList none h]

/-- Claim C4: rendering fails exactly when the template content is
structurally malformed (an unterminated placeholder, as in "Hello {{name"),
and the outcome never depends on the supplied values, so a missing value is
never a render failure. -/
theorem render_error_on_malformed_only :
    render "Hello \x7b\x7bname" [("name", "Ann")] = none ∧
    ∀ (content : String) (values : List (String × String)),
      (render content values).isSome = wellFormedContent content := by
  refine ⟨by decide, ?_⟩
  intro content values
  unfold render wellFormedContent
  have h0 := renderLoop_isSome_eq_wfLoop values content.toList none
  simp only [Option.isSome_none] at h0
  rw [← h0]
  cases renderLoop values content.toList none <;> rfl

/-- Claim C6, the code evaluated at the failing input: `CreateTemplate` never
checks the required inputs, so a request with empty name, type and content
and a field without key or label succeeds and persists its rows (the
`binding:"required"` struct tags are gin validator tags that the fiber body
parser never evaluates). -/
theorem createTemplate_accepts_missing_required_input :
    createTemplate emptyDB 7
        { name := "", description := "", type := "", category := "", content := "",
          fields := [{ key := "", label := "", type := "", required := false,
                       options := none }] } =
      (.ok 0,
       { templates := [{ id := 0, userID := 7, name := "", description := "",
                         type := "", category := "", isPublic := false }]
         versions := [{ id := 1, templateID := 0, version := 1, content := "" }]
         fields := [{ id := 2, templateID := 0, key := "", label := "",
                      type := "text", required := false, options := none }]
         history := []
         nextId := 3 }) := by decide

/-- Claim C2: for a field definition passed to `CreateTemplate`, a supplied
options blob is accepted exactly when it is syntactically well-formed
structured data; an ill-formed blob aborts the whole transaction with a
validation error and leaves the store unchanged; an omitted blob is valid and
the field persists with no options. -/
theorem createTemplate_options_wellformedness (s : DBState) (uid : Nat)
    (input : CreateTemplateAPI) (f : TemplateFieldAPI)
    (hf : input.fields = [f]) (hs : goodState s = true) :
    (∀ raw, f.options = some raw →
       (jsonValid raw = false →
          createTemplate s uid input = (.error .validation, s)) ∧
       (jsonValid raw = true →
          ∃ s1, createTemplate s uid input = (.ok s.nextId, s1))) ∧
    (f.options = none →
       ∃ s1 fld, createTemplate s uid input = (.ok s.nextId, s1) ∧
         s1.fields = s.fields ++ [fld] ∧ fld.options = none) := by
  obtain ⟨hT, hV, hF, hH⟩ := goodState_spec hs
  have cT : (({ s with nextId := s.nextId + 1 } : DBState).templates.any
      fun u => u.id == s.nextId) = false := by
    simp only [List.any_eq_false]
    intro u hu
    have hlt := hT u hu
    show ¬ ((u.id == s.nextId) = true)
    simp only [beq_iff_eq]
    omega
  have cV : (({ s with nextId := s.nextId + 1 } : DBState).versions.any fun w =>
      w.id == ({ s with nextId := s.nextId + 1 } : DBState).nextId ||
        (w.templateID == s.nextId && w.version == 1)) = false := by
    simp only [List.any_eq_false]
    intro w hw
    obtain ⟨h1, h2⟩ := hV w hw
    show ¬ ((w.id == s.nextId + 1 ||
      (w.templateID == s.nextId && w.version == 1)) = true)
    simp only [Bool.or_eq_true, Bool.and_eq_true, beq_iff_eq]
    omega
  have cF : (({ s with nextId := s.nextId + 1 } : DBState).fields.any fun g =>
      g.id == ({ s with nextId := s.nextId + 1 } : DBState).nextId + 1 ||
        (g.templateID == s.nextId && g.key == f.key)) = false := by
    simp only [List.any_eq_false]
    intro g hg
    obtain ⟨h1, h2⟩ := hF g hg
    show ¬ ((g.id == s.nextId + 1 + 1 ||
      (g.templateID == s.nextId && g.key == f.key)) = true)
    simp only [Bool.or_eq_true, Bool.and_eq_true, beq_iff_eq]
    intro hcon
    rcases hcon with h | ⟨h, -⟩ <;> omega
  constructor
  · intro raw hraw
    have single := createTemplateTx_single_some { s with nextId := s.nextId + 1 } uid
      s.nextId input f raw hf hraw cT cV cF
    constructor
    · intro hbad
      rw [hbad] at single
      simp only [Bool.false_eq_true, if_false] at single
      unfold createTemplate
      simp only [freshId]
      rw [single]
    · intro hgood
      rw [hgood] at single
      simp only [if_true] at single
      refine ⟨{ templates := s.templates ++
                  [{ id := s.nextId, userID := uid, name := input.name,
                     description := input.description, type := input.type,
                     category := input.category, isPublic := false }],
                versions := s.versions ++
                  [{ id := s.nextId + 1, templateID := s.nextId, version := 1,
                     content := input.content }],
                fields := s.fields ++ [mkField s.nextId (s.nextId + 2) f],
                history := s.history,
                nextId := s.nextId + 3 }, ?_⟩
      unfold createTemplate
      simp only [freshId]
      rw [single]
  · intro hnone
    have single := createTemplateTx_single_none { s with nextId := s.nextId + 1 } uid
      s.nextId input f hf hnone cT cV cF
    refine ⟨{ templates := s.templates ++
                [{ id := s.nextId, userID := uid, name := input.name,
                   description := input.description, type := input.type,
                   category := input.category, isPublic := false }],
              versions := s.versions ++
                [{ id := s.nextId + 1, templateID := s.nextId, version := 1,
                   content := input.content }],
              fields := s.fields ++ [mkField s.nextId (s.nextId + 2) f],
              history := s.history,
              nextId := s.nextId + 3 },
      mkField s.nextId (s.nextId + 2) f, ?_, rfl, rfl⟩
    unfold createTemplate
    simp only [freshId]
    rw [single]

/-- Claim C1, witness at a concrete input. -/
theorem createTemplate_atomic_witness :
    ((∃ t, stateOk.templates = emptyDB.templates ++ [t]) ∧
     (∃ v, stateOk.versions = emptyDB.versions ++ [v] ∧ v.version = 1) ∧
     stateOk.fields.length = emptyDB.fields.length + inputOk.fields.length ∧
     stateOk.history = emptyDB.history) ∧
    (createTemplate emptyDB 7 inputBadOptions).2 = emptyDB :=
  ⟨(createTemplate_atomic emptyDB 7 inputOk).1 0 stateOk (by decide),
   (createTemplate_atomic emptyDB 7 inputBadOptions).2 .validation
     (createTemplate emptyDB 7 inputBadOptions).2 (by decide)⟩

/-- Claim C2, witness at concrete inputs. -/
theorem createTemplate_options_wellformedness_witness :
    createTemplate emptyDB 7 inputBadOptions = (.error .validation, emptyDB) ∧
    (∃ s1, createTemplate emptyDB 7 inputGoodOptions = (.ok emptyDB.nextId, s1)) ∧
    (∃ s1 fld, createTemplate emptyDB 7 inputOk = (.ok emptyDB.nextId, s1) ∧
       s1.fields = emptyDB.fields ++ [fld] ∧ fld.options = none) :=
  ⟨((createTemplate_options_wellformedness emptyDB 7 inputBadOptions
      { key := "name", label := "Name", type := "", required := true,
        options := some "\x7b\"choices\": " } rfl (by decide)).1
      "\x7b\"choices\": " rfl).1 (by decide),
   ((createTemplate_options_wellformedness emptyDB 7 inputGoodOptions
      { key := "name", label := "Name", type := "select", required := true,
        options := some "\x7b\"choices\": [\"a\", \"b\"]\x7d" } rfl (by decide)).1
      "\x7b\"choices\": [\"a\", \"b\"]\x7d" rfl).2 (by decide),
   (createTemplate_options_wellformedness emptyDB 7 inputOk
      { key := "name", label := "Name", type := "", required := true,
        options := none } rfl (by decide)).2 rfl⟩

/-- Claim C3, witness at a concrete input. -/
theorem render_substitution_witness :
    render "Hi \x7b\x7ba\x7d\x7d" [("a", "x"), ("b", "1")] =
      render "Hi \x7b\x7ba\x7d\x7d" [("a", "x")] :=
  render_substitution.2.2 "Hi \x7b\x7ba\x7d\x7d" [("a", "x"), ("b", "1")]
    [("a", "x")] (by decide)

/-- Claim C5, witness at a concrete store. -/
theorem getTemplateByID_owner_filter_witness :
    getTemplateByID twoOwnerState (some 2) (some 0) = .error .notFound ∧
    getTemplateByID twoOwnerState (some 2) (some 99) = .error .notFound :=
  ⟨(getTemplateByID_owner_filter twoOwnerState 2
      { id := 0, userID := 1, name := "a", description := "", type := "html",
        category := "", isPublic := false } (by decide) (by decide) (by decide)).1,
   (getTemplateByID_owner_filter twoOwnerState 2
      { id := 0, userID := 1, name := "a", description := "", type := "html",
        category := "", isPublic := false } (by decide) (by decide) (by decide)).2
     99 (by decide)⟩

/-- Claim C7, witness at a concrete input. -/
theorem createTemplate_field_defaults_witness :
    ∃ rows, stateOk.fields = emptyDB.fields ++ rows ∧
      rows.map (fun r => r.key) = inputOk.fields.map (fun f => f.key) ∧
      rows.map (fun r => r.type) =
        inputOk.fields.map (fun f => if f.type == "" then "text" else f.type) ∧
      ∀ p ∈ rows.zip inputOk.fields, p.2.options = none → p.1.options = none :=
  createTemplate_field_defaults emptyDB 7 inputOk 0 stateOk (by decide)

/-- Claim C8, witness of the amended claim at a concrete store. -/
theorem previewTemplate_renders_first_version_witness :
    previewTemplate helloState2 (some 7) (some 0) [("name", "Ann")] =
      match render "Hello \x7b\x7bname\x7d\x7d" [("name", "Ann")] with
      | some out => .ok out
      | none => .error .renderError :=
  previewTemplate_renders_first_version helloState2 (some 7) (some 0)
    [("name", "Ann")]
    { id := 0, userID := 7, name := "greeting", description := "", type := "html",
      category := "", isPublic := false }
    { id := 1, templateID := 0, version := 1, content := "Hello \x7b\x7bname\x7d\x7d" }
    [{ id := 2, templateID := 0, version := 2, content := "Bye \x7b\x7bname\x7d\x7d" }]
    (by decide) (by decide)

/-- Claim C9, witness at a concrete store. -/
theorem createHistory_snapshot_witness :
    ∃ entry, (createHistory stateOk dtoA 7).2.history = stateOk.history ++ [entry] ∧
      entry.templateName = dtoA.name ∧ entry.templateID = 0 ∧
      entry.userID = 7 ∧ entry.version = dtoA.version.version ∧
      ∀ renamer newName,
        (renameTemplate (createHistory stateOk dtoA 7).2 renamer 0 newName).history =
          (createHistory stateOk dtoA 7).2.history :=
  createHistory_snapshot stateOk dtoA 7 0 (createHistory stateOk dtoA 7).2 (by decide)
    (by decide)

/-- Claim C10, witness at concrete stores. -/
theorem previewTemplate_empty_versions_guard_witness :
    previewTemplate noVersionState (some 7) (some 0) [] = .error .noVersions ∧
    (∃ t v rest, getTemplateByID helloState (some 7) (some 0) = .ok t ∧
       versionsOf helloState t.id = v :: rest ∧
       render v.content [("name", "Ann")] = some "Hello Ann") :=
  ⟨previewTemplate_empty_versions_guard.1 noVersionState (some 7) (some 0) []
     { id := 0, userID := 7, name := "empty", description := "", type := "html",
       category := "", isPublic := false } (by decide) (by decide),
   previewTemplate_empty_versions_guard.2 helloState (some 7) (some 0)
     [("name", "Ann")] "Hello Ann" (by decide)⟩

example : jsonValid "\x7b\"a\": [1, 2.5, \"x\", true, null]\x7d" = true := by decide
example : jsonValid "" = false := by decide
example : jsonValid "\x7b\"a\": \x7d" = false := by decide
example : jsonValid " 17 " = true := by decide
example : jsonValid "[1," = false := by decide
example : render "Hello \x7b\x7bname\x7d\x7d" [("name", "Ann")] = some "Hello Ann" := by decide
example : render "Hello \x7b\x7bname\x7d\x7d" [] = some "Hello " := by decide
example : render "Hello \x7b\x7bname" [("name", "Ann")] = none := by decide
example : render "Hello \x7b\x7b name \x7d\x7d!" [("name", "Ann")] = some "Hello Ann!" := by decide
example : wellFormedContent "Hello \x7b\x7bname" = false := by decide
example : placeholders "\x7b\x7ba\x7d\x7d and \x7b\x7bb\x7d\x7d" = ["a", "b"] := by decide
